import Mathlib

/-!
Shallow embedding of the translator extension's UI orchestration
(`chrome_extension/translator_ui.js`) and of the background tab manager
(`background.js`), with theorems checking the specification's claims.

Every definition is translated from the JavaScript source; comments cite
the source lines they embed.
-/

namespace TranslatorUI

/-! ## JavaScript string primitives used by the source -/

/-- JS `String.prototype.includes(pat)`: substring test. -/
def jsIncludes (s pat : String) : Bool :=
  decide (pat.data <:+: s.data)

/-- JS `x.detail || fallback` on an optional string field: `undefined`,
`null` and the empty string are falsy and select the fallback. -/
def jsOr (d : Option String) (fallback : String) : String :=
  match d with
  | some s => if s.isEmpty then fallback else s
  | none => fallback

/-- Code points of the WhiteSpace / LineTerminator characters removed by JS
`String.prototype.trim()` (TAB, LF, VT, FF, CR, SP, NBSP, Ogham space,
the en/em-family spaces, LS, PS, NNBSP, MMSP, ideographic space, BOM). -/
def jsWhitespaceCodes : List Nat :=
  [0x9, 0xA, 0xB, 0xC, 0xD, 0x20, 0xA0, 0x1680,
   0x2000, 0x2001, 0x2002, 0x2003, 0x2004, 0x2005, 0x2006, 0x2007,
   0x2008, 0x2009, 0x200A, 0x2028, 0x2029, 0x202F, 0x205F, 0x3000, 0xFEFF]

/-- Whether a character is JS trim whitespace. -/
def isJsWhitespace (c : Char) : Bool :=
  jsWhitespaceCodes.contains c.toNat

/-- JS `String.prototype.trim()`: drop leading and trailing whitespace. -/
def jsTrim (s : String) : String :=
  ⟨((s.data.dropWhile isJsWhitespace).reverse.dropWhile isJsWhitespace).reverse⟩

/-! ## Streaming fragment consumption

`translator_ui.js` lines 408-418: the stream reader loop.  The output
area starts empty (line 381 `outputDiv.textContent = ''`) and each decoded
chunk is appended as it arrives (line 417 `outputDiv.textContent += chunk`).
-/

/-- The reader loop of `handleStreamTranslation` (lines 411-418), applied to
the finite ordered sequence of decoded chunks: each chunk is appended to the
current output in arrival order. -/
def streamAppend : String → List String → String
  | out, [] => out
  | out, c :: cs => streamAppend (out ++ c) cs

/-- The output rendered after the loop has consumed the first `k` fragments,
starting from the cleared output area (line 381). -/
def streamRender (frags : List String) (k : Nat) : String :=
  streamAppend "" (frags.take k)

theorem streamAppend_eq_append (l : List String) :
    ∀ out, streamAppend out l = out ++ streamAppend "" l := by
  induction l with
  | nil => intro out; simp [streamAppend, String.append_empty]
  | cons c cs ih =>
    intro out
    simp only [streamAppend]
    rw [ih (out ++ c), ih ("" ++ c), String.empty_append, String.append_assoc]

theorem streamAppend_join (l : List String) :
    streamAppend "" l = String.join l := by
  induction l with
  | nil => simp [streamAppend, String.join]
  | cons c cs ih =>
    simp only [streamAppend, String.empty_append]
    rw [streamAppend_eq_append cs c, ih]
    apply String.ext
    rw [String.join_eq, String.join_eq, String.data_append]
    simp

theorem join_append (l₁ l₂ : List String) :
    String.join (l₁ ++ l₂) = String.join l₁ ++ String.join l₂ := by
  apply String.ext
  rw [String.data_append, String.join_eq, String.join_eq, String.join_eq]
  simp

/-- C1: in streaming mode each decoded fragment is appended to the output as
it arrives, so after consuming the k-th fragment the rendered output equals
the concatenation of the first k fragments in arrival order; after full
consumption the output is the concatenation of all fragments, and the
rendered output is prefix-consistent and non-decreasing at every step. -/
theorem stream_fragments_appended_in_order (frags : List String) (k : Nat) :
    streamRender frags k = String.join (List.take k frags)
    ∧ streamRender frags frags.length = String.join frags
    ∧ (∃ t, streamRender frags (k + 1) = streamRender frags k ++ t)
    ∧ (streamRender frags k).length ≤ (streamRender frags (k + 1)).length := by
  have hk : ∀ n, streamRender frags n = String.join (List.take n frags) := by
    intro n; rw [streamRender, streamAppend_join]
  have hstep : streamRender frags (k + 1) =
      streamRender frags k ++ String.join frags[k]?.toList := by
    rw [hk, hk, List.take_succ, join_append]
  refine ⟨hk k, ?_, ⟨_, hstep⟩, ?_⟩
  · rw [hk, List.take_length]
  · rw [hstep, String.length_append]
    exact Nat.le_add_right _ _

/-! ## Single-shot translation flow (`handleRegularTranslation`, lines 256-362) -/

/-- Line 320 fallback when the error body has no usable `detail`. -/
def unknownServerDetail : String := "알 수 없는 서버 오류"

/-- Marker prefixed to 400-status errors (line 321). -/
def inputErrorMarker : String := "입력 오류"

/-- Marker prefixed to 500-status errors (line 322). -/
def serverErrorMarker : String := "서버 내부 오류"

/-- Validation message for empty input (lines 269 and 375). -/
def validationEmptyMsg : String := "번역할 내용을 입력해주세요"

/-- Validation message for a placeholder model selection (line 274). -/
def validationModelMsg : String := "사용 가능한 모델을 먼저 선택해주세요"

/-- Status shown by the timeout timer callback (line 290). -/
def timeoutStatusMsg : String := "요청이 3분을 초과하여 취소되었습니다"

/-- User-facing message for an aborted request (line 346). -/
def abortUserMsg : String := "요청 시간이 초과되었습니다. 인터넷 연결을 확인해주세요."

/-- User-facing message for a transport failure (line 347). -/
def connectUserMsg : String := "서버에 연결할 수 없습니다. 서버가 실행 중인지 확인해주세요."

/-- User-facing message for a backend 500 error (line 349). -/
def serverErrorUserMsg : String :=
  "서버에서 번역을 처리하던 중 오류가 발생했습니다. 잠시 후 다시 시도해주세요."

/-- Default user-facing message (line 345). -/
def genericUserMsg : String := "알 수 없는 오류가 발생했습니다. 다시 시도해주세요."

/-- Status written by the `finally` block (line 359). -/
def readyMsg : String := "준비 완료"

/-- Timeout passed to `setTimeout` at line 294, in milliseconds. -/
def timeoutMillis : Nat := 180000

/-- The message of the `Error` thrown for a non-OK `/translate` response
(lines 318-324), classified by HTTP status with the body's `detail` field
(or the fallback) interpolated. -/
def httpThrownMessage (status : Nat) (detail : Option String) : String :=
  let m := jsOr detail unknownServerDetail
  if status = 400 then "입력 오류: " ++ m
  else if status = 500 then "서버 내부 오류: " ++ m
  else "HTTP " ++ toString status ++ ": " ++ m

/-- A JS `Error` as observed by the catch handler: its `name` and `message`. -/
structure JsError where
  name : String
  message : String

/-- The catch handler's message selection (lines 344-349). -/
def userFriendlyMessage (e : JsError) : String :=
  if e.name == "AbortError" then abortUserMsg
  else if e.name == "TypeError" && jsIncludes e.message "fetch" then connectUserMsg
  else if jsIncludes e.message inputErrorMarker then e.message
  else if jsIncludes e.message serverErrorMarker then serverErrorUserMsg
  else genericUserMsg

/-- What the catch handler renders (output area and status, lines 350-351)
for a non-OK `/translate` response of the given status and `detail`. -/
def renderedHttpError (status : Nat) (detail : Option String) : String :=
  userFriendlyMessage ⟨"Error", httpThrownMessage status detail⟩

/-- Observable UI/resource state of a single-shot attempt. -/
structure RegState where
  buttonDisabled : Bool
  inputEditable : Bool
  timeoutActive : Bool
  intervalActive : Bool
  aborted : Bool
  progressVisible : Bool
  output : String
  status : String

/-- How a dispatched single-shot attempt terminates. -/
inductive RegOutcome where
  | success (translated : String) (inputLen : Nat)
  | httpError (status : Nat) (detail : Option String)
  | networkError
  | timeoutFired

/-- State right after dispatch (lines 278-312): controls disabled, timeout
timer and progress ticker armed, request in flight. -/
def regStart (out0 : String) : RegState :=
  { buttonDisabled := true        -- line 278
    inputEditable := false        -- line 279
    timeoutActive := true         -- lines 288-294 setTimeout
    intervalActive := true        -- lines 296-300 setInterval
    aborted := false              -- line 287 new AbortController
    progressVisible := true       -- line 284 showProgress
    output := out0
    status := "번역 준비중..." }  -- line 280

/-- The catch handler (lines 340-351). -/
def regCatch (e : JsError) (s : RegState) : RegState :=
  let s := { s with progressVisible := false }   -- line 342 hideProgress
  let s := { s with intervalActive := false }    -- line 343 clearInterval
  let msg := userFriendlyMessage e
  { s with output := msg, status := msg }        -- lines 350-351

/-- The `finally` block (lines 353-361): clear the ticker and the timeout,
re-enable the button and the input area, and (the line-358 guard always
holds after line 356) show the ready status. -/
def regFinally (s : RegState) : RegState :=
  let s := { s with intervalActive := false }    -- line 354
  let s := { s with timeoutActive := false }     -- line 355
  let s := { s with buttonDisabled := false }    -- line 356
  let s := { s with inputEditable := true }      -- line 357
  { s with status := readyMsg }                  -- lines 358-360

/-- The whole dispatched single-shot flow for each terminating outcome. -/
def runRegular (out0 : String) (o : RegOutcome) : RegState :=
  let s0 := regStart out0
  match o with
  | .success t n =>
    -- first then-handler (line 314): clearTimeout
    let s := { s0 with timeoutActive := false }
    -- second then-handler (lines 328-338): render the result
    let s := { s with output := t }
    let s := regFinally s
    -- the 500 ms display callback from lines 335-338 runs after the finally
    { s with progressVisible := false,
             status := toString n ++ "자 번역 완료" }
  | .httpError st d =>
    let s := { s0 with timeoutActive := false }  -- line 314
    regFinally (regCatch ⟨"Error", httpThrownMessage st d⟩ s)
  | .networkError =>
    -- fetch rejected before any then-handler ran
    regFinally (regCatch ⟨"TypeError", "Failed to fetch"⟩ s0)
  | .timeoutFired =>
    -- the timer callback (lines 288-294)
    let s := { s0 with aborted := true, timeoutActive := false }
    let s := { s with status := timeoutStatusMsg }            -- line 290
    let s := { s with progressVisible := false }              -- line 291
    let s := { s with buttonDisabled := false,
                      inputEditable := true }                 -- lines 292-293
    -- the aborted fetch then rejects with an AbortError
    regFinally (regCatch ⟨"AbortError", "The user aborted a request."⟩ s)

/-! ## Streaming translation flow (`handleStreamTranslation`, lines 364-440) -/

/-- Line 405 fallback when the parsed error body has no usable `detail`. -/
def streamFallbackDetail : String := "스트리밍 연결에 실패했습니다."

/-- Output shown for a cancelled streaming attempt (line 428). -/
def cancelOutputMsg : String := "번역이 사용자에 의해 취소되었습니다."

/-- Status shown for a cancelled streaming attempt (line 429). -/
def cancelStatusMsg : String := "번역 취소됨"

/-- Result of `JSON.parse(errorText)` at line 405, as seen by the handler:
either the parse threw (non-JSON body), or it produced an object whose
`detail` field is the given optional string. -/
inductive JsParseResult where
  | thrown (msg : String)
  | value (detail : Option String)

/-- The error that escapes line 405 for a non-OK `/translate_stream`
response: a parse failure propagates as-is; otherwise an `Error` carrying
the `detail` (or the fallback) is thrown. -/
def streamNonOkError (p : JsParseResult) : JsError :=
  match p with
  | .thrown m => ⟨"SyntaxError", m⟩
  | .value d => ⟨"Error", jsOr d streamFallbackDetail⟩

/-- Observable UI/resource state of a streaming attempt. -/
structure StreamState where
  buttonDisabled : Bool
  inputEditable : Bool
  unloadListenerActive : Bool
  aborted : Bool
  output : String
  status : String

/-- How a dispatched streaming attempt terminates. -/
inductive StreamOutcome where
  | success (frags : List String)
  | httpError (p : JsParseResult)
  | networkError
  | aborted

/-- State right after dispatch (lines 379-401): controls disabled, output
cleared, beforeunload cancellation subscription installed. -/
def streamStart (_out0 : String) : StreamState :=
  { buttonDisabled := true        -- line 379
    inputEditable := false        -- line 380
    unloadListenerActive := true  -- line 389 addEventListener
    aborted := false              -- line 384 new AbortController
    output := ""                  -- line 381 clears the previous output
    status := "스트리밍 번역 중..." }  -- line 382

/-- The catch handler (lines 425-433). -/
def streamCatch (e : JsError) (s : StreamState) : StreamState :=
  if e.name == "AbortError" then
    { s with output := cancelOutputMsg, status := cancelStatusMsg }
  else
    { s with output := "오류: " ++ e.message,
             status := "오류: " ++ e.message }

/-- The `finally` block (lines 434-439): remove the beforeunload
subscription and re-enable the controls. -/
def streamFinally (s : StreamState) : StreamState :=
  let s := { s with unloadListenerActive := false }  -- line 436
  let s := { s with buttonDisabled := false }        -- line 437
  { s with inputEditable := true }                   -- line 438

/-- The whole dispatched streaming flow for each terminating outcome. -/
def runStream (out0 : String) (o : StreamOutcome) : StreamState :=
  let s0 := streamStart out0
  match o with
  | .success frags =>
    -- the reader loop (lines 411-418) then the success status (line 420)
    let s := { s0 with output := streamAppend "" frags }
    streamFinally { s with status := "스트리밍 완료" }
  | .httpError p =>
    streamFinally (streamCatch (streamNonOkError p) s0)
  | .networkError =>
    streamFinally (streamCatch ⟨"TypeError", "Failed to fetch"⟩ s0)
  | .aborted =>
    -- beforeunload fired: the handler (line 385) aborts the controller
    let s := { s0 with aborted := true }
    streamFinally (streamCatch ⟨"AbortError", "The user aborted a request."⟩ s)

theorem jsIncludes_of_data_leading {marker s : String}
    (h : marker.data <+: s.data) : jsIncludes s marker = true := by
  simpa [jsIncludes] using List.IsPrefix.isInfix h

theorem thrown400_includes_marker (d : Option String) :
    jsIncludes (httpThrownMessage 400 d) inputErrorMarker = true := by
  apply jsIncludes_of_data_leading
  show inputErrorMarker.data <+: ("입력 오류: " ++ jsOr d unknownServerDetail).data
  rw [String.data_append,
    (by decide : ("입력 오류: " : String).data =
      inputErrorMarker.data ++ (": " : String).data),
    List.append_assoc]
  exact List.prefix_append _ _

theorem thrown500_includes_marker (d : Option String) :
    jsIncludes (httpThrownMessage 500 d) serverErrorMarker = true := by
  apply jsIncludes_of_data_leading
  show serverErrorMarker.data <+: ("서버 내부 오류: " ++ jsOr d unknownServerDetail).data
  rw [String.data_append,
    (by decide : ("서버 내부 오류: " : String).data =
      serverErrorMarker.data ++ (": " : String).data),
    List.append_assoc]
  exact List.prefix_append _ _

theorem userFriendlyMessage_plain (m : String) :
    userFriendlyMessage ⟨"Error", m⟩ =
      if jsIncludes m inputErrorMarker then m
      else if jsIncludes m serverErrorMarker then serverErrorUserMsg
      else genericUserMsg := by
  unfold userFriendlyMessage
  simp

/-- C2 counterexample: a 500 response with `detail` = `"quota"` renders the
fixed server-error message, which does not contain the detail text. -/
theorem http_500_detail_not_surfaced :
    renderedHttpError 500 (some "quota") = serverErrorUserMsg
    ∧ jsIncludes (renderedHttpError 500 (some "quota")) "quota" = false := by
  exact ⟨by decide, by decide⟩

/-- C2 (amended): the rendered error is classified by status — a 400 status
renders the input-error message with the backend `detail` interpolated; a
500 status (when the thrown message does not accidentally contain the
input-error marker) renders the fixed backend-error message, without the
detail; any other status (when the thrown message contains neither marker)
renders the fixed generic message, without the detail.  The backend
`detail` is surfaced only in the 400 case. -/
theorem regular_http_error_classification :
    (∀ d, renderedHttpError 400 d = "입력 오류: " ++ jsOr d unknownServerDetail)
    ∧ (∀ d, jsIncludes (httpThrownMessage 500 d) inputErrorMarker = false →
        renderedHttpError 500 d = serverErrorUserMsg)
    ∧ (∀ s d, s ≠ 400 → s ≠ 500 →
        jsIncludes (httpThrownMessage s d) inputErrorMarker = false →
        jsIncludes (httpThrownMessage s d) serverErrorMarker = false →
        renderedHttpError s d = genericUserMsg) := by
  refine ⟨?_, ?_, ?_⟩
  · intro d
    rw [renderedHttpError, userFriendlyMessage_plain,
      if_pos (thrown400_includes_marker d)]
    rfl
  · intro d hno
    rw [renderedHttpError, userFriendlyMessage_plain,
      if_neg (by simp [hno]), if_pos (thrown500_includes_marker d)]
  · intro s d _ _ hno1 hno2
    rw [renderedHttpError, userFriendlyMessage_plain,
      if_neg (by simp [hno1]), if_neg (by simp [hno2])]

/-- Witness for the amended C2 at concrete inputs. -/
theorem regular_http_error_classification_witness :
    renderedHttpError 400 (some "empty text") = "입력 오류: " ++ "empty text"
    ∧ renderedHttpError 500 (some "quota") = serverErrorUserMsg
    ∧ renderedHttpError 403 (some "forbidden") = genericUserMsg := by
  refine ⟨?_, ?_, ?_⟩
  · exact regular_http_error_classification.1 (some "empty text")
  · exact regular_http_error_classification.2.1 (some "quota") (by decide)
  · exact regular_http_error_classification.2.2 403 (some "forbidden")
      (by decide) (by decide) (by decide) (by decide)

/-- C3: every terminating execution path of a translation attempt tears its
resources down in the final step — single-shot: both the timeout timer and
the progress ticker are cleared and the controls are re-enabled; streaming:
the beforeunload subscription is removed and the controls are re-enabled. -/
theorem attempt_resources_torn_down (out0 : String) (o : RegOutcome)
    (so : StreamOutcome) :
    (runRegular out0 o).timeoutActive = false
    ∧ (runRegular out0 o).intervalActive = false
    ∧ (runRegular out0 o).buttonDisabled = false
    ∧ (runRegular out0 o).inputEditable = true
    ∧ (runStream out0 so).unloadListenerActive = false
    ∧ (runStream out0 so).buttonDisabled = false
    ∧ (runStream out0 so).inputEditable = true := by
  cases o <;> cases so <;> exact ⟨rfl, rfl, rfl, rfl, rfl, rfl, rfl⟩

/-- C4: on timer expiry the in-flight single-shot request is aborted via its
controller, the rendered message is the timeout-specific one (distinct from
the transport-error and generic messages), the controls return to enabled,
and the timer constant is 180 seconds. -/
theorem regular_timeout_aborts_and_recovers (out0 : String) :
    timeoutMillis = 180 * 1000
    ∧ (runRegular out0 .timeoutFired).aborted = true
    ∧ (runRegular out0 .timeoutFired).output = abortUserMsg
    ∧ abortUserMsg ≠ connectUserMsg
    ∧ abortUserMsg ≠ genericUserMsg
    ∧ (runRegular out0 .timeoutFired).buttonDisabled = false
    ∧ (runRegular out0 .timeoutFired).inputEditable = true := by
  exact ⟨rfl, rfl, rfl, by decide, by decide, rfl, rfl⟩

/-- C10: for a non-OK `/translate_stream` response, a body whose parse
throws renders the parse-failure message; the backend `detail` is surfaced
exactly when the body parses to an object with a non-empty `detail` field,
and otherwise the fallback connection-failure message is rendered. -/
theorem stream_nonok_parse_failure_rendering (out0 : String) :
    (∀ m, (runStream out0 (.httpError (.thrown m))).output = "오류: " ++ m)
    ∧ (∀ d, d.isEmpty = false →
        (runStream out0 (.httpError (.value (some d)))).output = "오류: " ++ d)
    ∧ (runStream out0 (.httpError (.value none))).output =
        "오류: " ++ streamFallbackDetail
    ∧ (runStream out0 (.httpError (.value (some "")))).output =
        "오류: " ++ streamFallbackDetail := by
  refine ⟨fun m => rfl, fun d hd => ?_, rfl, rfl⟩
  simp [runStream, streamStart, streamFinally, streamCatch, streamNonOkError,
    jsOr, hd]

/-- Witness for C10 at concrete inputs. -/
theorem stream_nonok_parse_failure_rendering_witness :
    (runStream "" (.httpError (.thrown "Unexpected token"))).output =
      "오류: " ++ "Unexpected token"
    ∧ (runStream "" (.httpError (.value (some "boom")))).output =
      "오류: " ++ "boom" := by
  exact ⟨(stream_nonok_parse_failure_rendering "").1 "Unexpected token",
    (stream_nonok_parse_failure_rendering "").2.1 "boom" rfl⟩

/-! ## Click-time validation (lines 268-276 and 374-377)

The observable effects of a translate-button click, up to dispatch, as an
ordered trace of status updates, control disabling and network calls. -/

/-- An observable effect of the click handler. -/
inductive UiAction where
  | setStatus (msg : String) (kind : String)
  | disableControls
  | networkCall (endpoint : String)
deriving DecidableEq

/-- Line 273: the model selection is unusable when it is empty or still a
placeholder (`로딩`, `없음`). -/
def isPlaceholderModel (model : String) : Bool :=
  model.isEmpty || jsIncludes model "로딩" || jsIncludes model "없음"

/-- Effect trace of `handleRegularTranslation` up to the network call
(lines 268-302). -/
def regularClickTrace (inputText model : String) : List UiAction :=
  if (jsTrim inputText).isEmpty then
    [.setStatus validationEmptyMsg "error"]          -- lines 268-271
  else if isPlaceholderModel model then
    [.setStatus validationModelMsg "error"]          -- lines 273-276
  else
    [.disableControls,                               -- lines 278-279
     .setStatus "번역 준비중..." "loading",           -- line 280
     .networkCall "/translate"]                      -- line 302

/-- Effect trace of `handleStreamTranslation` up to the network call
(lines 374-391). -/
def streamClickTrace (inputText : String) : List UiAction :=
  if (jsTrim inputText).isEmpty then
    [.setStatus validationEmptyMsg "error"]          -- lines 374-377
  else
    [.disableControls,                               -- lines 379-380
     .setStatus "스트리밍 번역 중..." "loading",       -- line 382
     .networkCall "/translate_stream"]               -- line 391

/-- C5: for input that trims to empty, a click in either mode issues no
network call, never disables the controls, and only shows the validation
message. -/
theorem empty_input_rejected (inputText model : String)
    (h : jsTrim inputText = "") :
    regularClickTrace inputText model = [.setStatus validationEmptyMsg "error"]
    ∧ streamClickTrace inputText = [.setStatus validationEmptyMsg "error"]
    ∧ (∀ ep, UiAction.networkCall ep ∉ regularClickTrace inputText model)
    ∧ (∀ ep, UiAction.networkCall ep ∉ streamClickTrace inputText)
    ∧ UiAction.disableControls ∉ regularClickTrace inputText model
    ∧ UiAction.disableControls ∉ streamClickTrace inputText := by
  have he : (jsTrim inputText).isEmpty = true := by rw [h]; rfl
  refine ⟨?_, ?_, ?_, ?_, ?_, ?_⟩ <;>
    simp [regularClickTrace, streamClickTrace, he]

/-- Witness for C5: whitespace-only input is rejected in both modes. -/
theorem empty_input_rejected_witness :
    regularClickTrace "  \t\n " "gemini-pro" =
      [.setStatus validationEmptyMsg "error"]
    ∧ streamClickTrace "  \t\n " = [.setStatus validationEmptyMsg "error"] :=
  ⟨(empty_input_rejected "  \t\n " "gemini-pro" (by decide)).1,
   (empty_input_rejected "  \t\n " "gemini-pro" (by decide)).2.1⟩

/-! ## Tab lifecycle (`background.js`, lines 7-39) -/

/-- The browser's tab table, as far as the manager can observe it: the set
of live tab ids and the id the browser will give the next created tab. -/
structure TabsModel where
  live : List Nat
  nextId : Nat

/-- A tab-level side effect of handling a "show video" event. -/
inductive TabEffect where
  | updated (id : Nat) (url : String) (active : Bool)
  | created (url : String) (id : Nat) (active : Bool)
deriving DecidableEq

/-- JS truthiness of the stored `translatorTabId` (line 24). -/
def jsTruthyNat : Option Nat → Bool
  | some n => n != 0
  | none => false

/-- `chrome.tabs.get(id)`: resolves when the tab is live, rejects
otherwise. -/
def tabsGet (m : TabsModel) (id : Nat) : Option Nat :=
  if id ∈ m.live then some id else none

/-- `createTranslatorTab` (lines 7-14): create an active tab at the URL
and, when the new tab's id is truthy, store it as the new
`translatorTabId`. -/
def createTranslatorTab (url : String) (m : TabsModel) (stored : Option Nat) :
    TabEffect × Option Nat :=
  (.created url m.nextId true,
   if m.nextId ≠ 0 then some m.nextId else stored)

/-- `reuseOrCreateTab` (lines 20-39): if a truthy id is stored and still
resolves, update that tab's URL and focus it; on lookup failure or with no
stored id, create a new tab. -/
def reuseOrCreateTab (newUrl : String) (stored : Option Nat) (m : TabsModel) :
    TabEffect × Option Nat :=
  if jsTruthyNat stored then
    match tabsGet m (stored.getD 0) with
    | some tabId => (.updated tabId newUrl true, stored)   -- line 29
    | none => createTranslatorTab newUrl m stored          -- lines 30-34
  else
    createTranslatorTab newUrl m stored                    -- lines 35-38

/-- C6: a stored id that resolves to a live tab is reused — that same tab
is navigated to the UI URL and focused, with no tab created; a dead stored
id or no stored id leads to a new focused tab at that URL whose id becomes
the new stored reference, and a failed lookup is handled exactly like "no
tracked tab". -/
theorem tab_reuse_or_create (url : String) (m : TabsModel) :
    (∀ id, id ≠ 0 → id ∈ m.live →
      reuseOrCreateTab url (some id) m = (.updated id url true, some id))
    ∧ (∀ id, id ≠ 0 → id ∉ m.live → m.nextId ≠ 0 →
      reuseOrCreateTab url (some id) m =
        (.created url m.nextId true, some m.nextId))
    ∧ (m.nextId ≠ 0 →
      reuseOrCreateTab url none m =
        (.created url m.nextId true, some m.nextId))
    ∧ (∀ id, id ∉ m.live → m.nextId ≠ 0 →
      reuseOrCreateTab url (some id) m = reuseOrCreateTab url none m) := by
  refine ⟨?_, ?_, ?_, ?_⟩
  · intro id h0 hlive
    simp [reuseOrCreateTab, jsTruthyNat, tabsGet, h0, hlive]
  · intro id h0 hdead hn
    simp [reuseOrCreateTab, jsTruthyNat, tabsGet, createTranslatorTab,
      h0, hdead, hn]
  · intro hn
    simp [reuseOrCreateTab, jsTruthyNat, createTranslatorTab, hn]
  · intro id hdead hn
    by_cases h0 : id = 0
    · subst h0
      simp [reuseOrCreateTab, jsTruthyNat, createTranslatorTab, hn]
    · simp [reuseOrCreateTab, jsTruthyNat, tabsGet, createTranslatorTab,
        h0, hdead, hn]

/-- Witness for C6 at a concrete tab table. -/
theorem tab_reuse_or_create_witness :
    reuseOrCreateTab "ui.html?videoId=x" (some 5) ⟨[5], 7⟩ =
      (.updated 5 "ui.html?videoId=x" true, some 5)
    ∧ reuseOrCreateTab "ui.html?videoId=x" (some 9) ⟨[5], 7⟩ =
      (.created "ui.html?videoId=x" 7 true, some 7)
    ∧ reuseOrCreateTab "ui.html?videoId=x" (some 9) ⟨[5], 7⟩ =
      reuseOrCreateTab "ui.html?videoId=x" none ⟨[5], 7⟩ :=
  ⟨(tab_reuse_or_create "ui.html?videoId=x" ⟨[5], 7⟩).1 5
      (by decide) (by decide),
   (tab_reuse_or_create "ui.html?videoId=x" ⟨[5], 7⟩).2.1 9
      (by decide) (by decide) (by decide),
   (tab_reuse_or_create "ui.html?videoId=x" ⟨[5], 7⟩).2.2.2 9
      (by decide) (by decide)⟩

/-! ## Transcript rendering (`fetchAndDisplayTranscript`, lines 140-176) -/

/-- JS `s.replace(/c/g, rep)` for a single-character pattern: every
occurrence of `c` is replaced by `rep`. -/
def listReplace (c : Char) (rep : List Char) (l : List Char) : List Char :=
  l.flatMap (fun x => if x = c then rep else [x])

/-- Line 162: `transcript.replace(/&/g, "&amp;").replace(/</g, "&lt;")
.replace(/>/g, "&gt;")`, applied in that order. -/
def escapeHtml (s : String) : String :=
  ⟨listReplace '>' ("&gt;" : String).data
    (listReplace '<' ("&lt;" : String).data
      (listReplace '&' ("&amp;" : String).data s.data))⟩

/-- Opening markup of the title line (lines 158 and 170). -/
def titleOpen : String := "<div style=\"font-size: 20px; font-weight: 500;\">"

/-- Closing markup of the title line. -/
def titleClose : String := " - YouTube</div>"

/-- Opening markup of the URL line (lines 159 and 171). -/
def urlOpen : String :=
  "<div style=\"font-size: 14px; color: #555; margin-bottom: 1em;\">"

/-- Closing markup of the URL line. -/
def urlClose : String := "</div>"

/-- Line 154 fallback when the error body has no usable `detail`. -/
def transcriptFallbackMsg : String := "자막을 불러올 수 없습니다."

/-- Opening markup of the inline error line (line 172). -/
def errOpen : String := "<div style=\"color: red;\">자막을 불러오는 데 실패했습니다: "

/-- The HTML assigned to the input area on a successful transcript fetch
(lines 158-164): raw title/URL metadata followed by the escaped
transcript. -/
def renderTranscriptSuccess (videoTitle fullUrl transcript : String) :
    String :=
  titleOpen ++ jsTrim videoTitle ++ titleClose
    ++ urlOpen ++ fullUrl ++ urlClose
    ++ escapeHtml transcript

/-- The HTML assigned to the input area on a failed transcript fetch
(lines 168-173): the same metadata followed by an inline error carrying the
backend `detail` or the generic fallback. -/
def renderTranscriptFailure (videoTitle fullUrl : String)
    (detail : Option String) : String :=
  titleOpen ++ jsTrim videoTitle ++ titleClose
    ++ urlOpen ++ fullUrl ++ urlClose
    ++ errOpen ++ jsOr detail transcriptFallbackMsg ++ "</div>"

/-- Character-wise view of the three-stage escape. -/
def escChar (c : Char) : List Char :=
  if c = '&' then ("&amp;" : String).data
  else if c = '<' then ("&lt;" : String).data
  else if c = '>' then ("&gt;" : String).data
  else [c]

/-- The HTML-entity decoder inverse to the escape: `&amp;`, `&lt;`, `&gt;`
decode to their characters, everything else passes through. -/
def unescapeChars : List Char → List Char
  | [] => []
  | '&' :: 'a' :: 'm' :: 'p' :: ';' :: rest => '&' :: unescapeChars rest
  | '&' :: 'l' :: 't' :: ';' :: rest => '<' :: unescapeChars rest
  | '&' :: 'g' :: 't' :: ';' :: rest => '>' :: unescapeChars rest
  | c :: rest => c :: unescapeChars rest

theorem listReplace_append (c : Char) (rep : List Char) (a b : List Char) :
    listReplace c rep (a ++ b) = listReplace c rep a ++ listReplace c rep b := by
  simp [listReplace]

theorem escape_eq_flatMap (l : List Char) :
    listReplace '>' ("&gt;" : String).data
      (listReplace '<' ("&lt;" : String).data
        (listReplace '&' ("&amp;" : String).data l)) = l.flatMap escChar := by
  induction l with
  | nil => rfl
  | cons x xs ih =>
    have hcons : listReplace '&' ("&amp;" : String).data (x :: xs) =
        (if x = '&' then ("&amp;" : String).data else [x])
          ++ listReplace '&' ("&amp;" : String).data xs := by
      simp [listReplace]
    rw [hcons, listReplace_append, listReplace_append, List.flatMap_cons, ih]
    congr 1
    by_cases h1 : x = '&'
    · subst h1; decide
    · rw [if_neg h1]
      by_cases h2 : x = '<'
      · subst h2; simp [escChar, listReplace]
      · by_cases h3 : x = '>'
        · subst h3; simp [escChar, listReplace]
        · simp [escChar, listReplace, h1, h2, h3]

theorem not_mem_listReplace_self {c : Char} {rep l : List Char}
    (h : c ∉ rep) : c ∉ listReplace c rep l := by
  intro hmem
  rcases List.mem_flatMap.1 hmem with ⟨a, _, ha⟩
  by_cases hac : a = c
  · rw [if_pos hac] at ha; exact h ha
  · rw [if_neg hac] at ha
    rcases List.mem_singleton.1 ha with rfl
    exact hac rfl

theorem not_mem_listReplace_other {c c2 : Char} {rep l : List Char}
    (hl : c ∉ l) (hrep : c ∉ rep) : c ∉ listReplace c2 rep l := by
  intro hmem
  rcases List.mem_flatMap.1 hmem with ⟨a, hal, ha⟩
  by_cases hac : a = c2
  · rw [if_pos hac] at ha; exact hrep ha
  · rw [if_neg hac] at ha
    rcases List.mem_singleton.1 ha with rfl
    exact hl hal

/-- The escaped transcript contains no raw `<` or `>` character. -/
theorem escapeHtml_no_angle (s : String) :
    '<' ∉ (escapeHtml s).data ∧ '>' ∉ (escapeHtml s).data := by
  constructor
  · exact not_mem_listReplace_other
      (not_mem_listReplace_self (by decide)) (by decide)
  · exact not_mem_listReplace_self (by decide)

/-- Decoding the escaped transcript recovers the original text. -/
theorem unescape_escapeHtml (s : String) :
    unescapeChars (escapeHtml s).data = s.data := by
  show unescapeChars (listReplace '>' _ (listReplace '<' _
    (listReplace '&' _ s.data))) = s.data
  rw [escape_eq_flatMap]
  induction s.data with
  | nil => rfl
  | cons x xs ih =>
    rw [List.flatMap_cons]
    by_cases h1 : x = '&'
    · subst h1
      show unescapeChars ('&' :: 'a' :: 'm' :: 'p' :: ';' :: xs.flatMap escChar)
        = '&' :: xs
      rw [unescapeChars, ih]
    · by_cases h2 : x = '<'
      · subst h2
        show unescapeChars ('&' :: 'l' :: 't' :: ';' :: xs.flatMap escChar)
          = '<' :: xs
        rw [unescapeChars, ih]
      · by_cases h3 : x = '>'
        · subst h3
          show unescapeChars ('&' :: 'g' :: 't' :: ';' :: xs.flatMap escChar)
            = '>' :: xs
          rw [unescapeChars, ih]
        · have hx : escChar x = [x] := by simp [escChar, h1, h2, h3]
          rw [hx]
          show unescapeChars (x :: xs.flatMap escChar) = x :: xs
          rw [unescapeChars.eq_def]
          split
          · simp_all
          · simp_all
          · simp_all
          · simp_all
          · simp_all [ih]

/-- C7: on success, the rendered content is the title/URL metadata prefix
followed by the transcript with `&`, `<`, `>` HTML-escaped — the escaped
body contains no raw angle bracket and decodes back to the original
transcript, so markup inside it is displayed as literal text; on failure,
an inline error carrying the backend `detail`, or the generic fallback when
none is given, is rendered in place of the content. -/
theorem transcript_render_escapes_body (t u tr d : String)
    (hd : d.isEmpty = false) :
    renderTranscriptSuccess t u tr =
      (titleOpen ++ jsTrim t ++ titleClose ++ urlOpen ++ u ++ urlClose)
        ++ escapeHtml tr
    ∧ '<' ∉ (escapeHtml tr).data
    ∧ '>' ∉ (escapeHtml tr).data
    ∧ unescapeChars (escapeHtml tr).data = tr.data
    ∧ renderTranscriptFailure t u (some d) =
      titleOpen ++ jsTrim t ++ titleClose ++ urlOpen ++ u ++ urlClose
        ++ errOpen ++ d ++ "</div>"
    ∧ renderTranscriptFailure t u none =
      titleOpen ++ jsTrim t ++ titleClose ++ urlOpen ++ u ++ urlClose
        ++ errOpen ++ transcriptFallbackMsg ++ "</div>" := by
  refine ⟨rfl, (escapeHtml_no_angle tr).1, (escapeHtml_no_angle tr).2,
    unescape_escapeHtml tr, ?_, rfl⟩
  simp [renderTranscriptFailure, jsOr, hd]

/-- Witness for C7 at concrete inputs. -/
theorem transcript_render_escapes_body_witness :
    ("no transcript" : String).isEmpty = false
    ∧ unescapeChars (escapeHtml "<b>안녕</b>").data =
        ("<b>안녕</b>" : String).data :=
  ⟨by decide,
   (transcript_render_escapes_body "V" "u" "<b>안녕</b>" "no transcript"
      (by decide)).2.2.2.1⟩

set_option maxRecDepth 40000 in
/-- C9: in both transcript branches the videoTitle and fullUrl values are
interpolated into the input area's HTML verbatim, with no escaping — only
the transcript body is escaped — so a title or URL containing `<`/`>`
markup appears raw in the rendered HTML (where its escaped form would
not). -/
theorem metadata_interpolated_unescaped :
    (∀ t u tr, (jsTrim t).data <:+: (renderTranscriptSuccess t u tr).data
      ∧ u.data <:+: (renderTranscriptSuccess t u tr).data)
    ∧ (∀ t u d, (jsTrim t).data <:+: (renderTranscriptFailure t u d).data
      ∧ u.data <:+: (renderTranscriptFailure t u d).data)
    ∧ jsIncludes (renderTranscriptSuccess "<img src=x>" "u" "tr")
        "<img src=x>" = true
    ∧ jsIncludes (escapeHtml "<img src=x>") "<img src=x>" = false
    ∧ jsIncludes (renderTranscriptFailure "t" "<img src=x>" none)
        "<img src=x>" = true := by
  refine ⟨?_, ?_, by decide, by decide, by decide⟩
  · intro t u tr
    constructor
    · refine ⟨titleOpen.data,
        (titleClose ++ urlOpen ++ u ++ urlClose ++ escapeHtml tr).data, ?_⟩
      simp [renderTranscriptSuccess, String.data_append, List.append_assoc]
    · refine ⟨(titleOpen ++ jsTrim t ++ titleClose ++ urlOpen).data,
        (urlClose ++ escapeHtml tr).data, ?_⟩
      simp [renderTranscriptSuccess, String.data_append, List.append_assoc]
  · intro t u d
    constructor
    · refine ⟨titleOpen.data,
        (titleClose ++ urlOpen ++ u ++ urlClose ++ errOpen
          ++ jsOr d transcriptFallbackMsg ++ "</div>").data, ?_⟩
      simp [renderTranscriptFailure, String.data_append, List.append_assoc]
    · refine ⟨(titleOpen ++ jsTrim t ++ titleClose ++ urlOpen).data,
        (urlClose ++ errOpen ++ jsOr d transcriptFallbackMsg
          ++ "</div>").data, ?_⟩
      simp [renderTranscriptFailure, String.data_append, List.append_assoc]

/-! ## Persisted UI preferences (DOMContentLoaded handler, lines 178-245,
and the single-shot success handler, lines 328-338) -/

/-- How a checkbox state is serialized by `localStorage.setItem` (JS
coerces the boolean to a string). -/
def boolToStorage (b : Bool) : String := if b then "true" else "false"

/-- The localStorage keys read during initialization, in source order
(lines 197, 208, 236, 237). -/
def initReadKeys : List String :=
  ["show_timestamp", "use_streaming", "lastUsedProvider", "lastUsedModel"]

/-- The UI settings derived from storage at initialization. -/
structure PrefsUi where
  showTimestamp : Bool
  useStreaming : Bool
  provider : String
  model : Option String

/-- The initialization reads: `=== 'true'` for the flags (lines 197-198 and
208-209), `|| 'gemini'` for the provider (line 236), raw for the model
(line 237). -/
def initPrefs (st : String → Option String) : PrefsUi :=
  { showTimestamp := st "show_timestamp" == some "true"
    useStreaming := st "use_streaming" == some "true"
    provider := jsOr (st "lastUsedProvider") "gemini"
    model := st "lastUsedModel" }

/-- `localStorage.setItem`. -/
def storeSet (st : String → Option String) (kv : String × String) :
    String → Option String :=
  fun k => if k = kv.1 then some kv.2 else st k

/-- Apply a list of writes to the store, in order. -/
def applyWrites (st : String → Option String) :
    List (String × String) → (String → Option String)
  | [] => st
  | kv :: rest => applyWrites (storeSet st kv) rest

/-- Writes performed by the timestamp-checkbox change listener (line 201). -/
def timestampToggleWrites (checked : Bool) : List (String × String) :=
  [("show_timestamp", boolToStorage checked)]

/-- Writes performed by the streaming-checkbox change listener (line 212). -/
def streamingToggleWrites (checked : Bool) : List (String × String) :=
  [("use_streaming", boolToStorage checked)]

/-- Writes performed by the provider-select change listener (lines
240-242): it only reloads the model list and writes nothing. -/
def providerChangeWrites (_provider : String) : List (String × String) := []

/-- Writes performed by the single-shot success handler (lines 332-333). -/
def regularSuccessWrites (provider model : String) : List (String × String) :=
  [("lastUsedProvider", provider), ("lastUsedModel", model)]

/-- Writes performed on streaming success (lines 420-423): none. -/
def streamSuccessWrites : List (String × String) := []

/-- C8 counterexample: changing the provider setting writes nothing to
storage — after a provider change on an empty store, `lastUsedProvider` is
still unset — and a successful streaming translation writes nothing
either.  So `lastUsedProvider`/`lastUsedModel` are not written when the
corresponding setting changes. -/
theorem provider_change_writes_nothing :
    providerChangeWrites "openai" = []
    ∧ applyWrites (fun _ => none) (providerChangeWrites "openai")
        "lastUsedProvider" = none
    ∧ streamSuccessWrites = [] :=
  ⟨rfl, rfl, rfl⟩

/-- C8 (amended): all four keys are read at initialization;
`show_timestamp` and `use_streaming` are written whenever their checkbox
changes (and the new value is what initialization then reads back);
`lastUsedProvider` and `lastUsedModel` are written on a successful
single-shot translation, not when the selection changes. -/
theorem preference_persistence (st : String → Option String) (b : Bool)
    (p m : String) :
    ("show_timestamp" ∈ initReadKeys ∧ "use_streaming" ∈ initReadKeys
      ∧ "lastUsedProvider" ∈ initReadKeys ∧ "lastUsedModel" ∈ initReadKeys)
    ∧ applyWrites st (timestampToggleWrites b) "show_timestamp" =
        some (boolToStorage b)
    ∧ (initPrefs (applyWrites st (timestampToggleWrites b))).showTimestamp = b
    ∧ applyWrites st (streamingToggleWrites b) "use_streaming" =
        some (boolToStorage b)
    ∧ (initPrefs (applyWrites st (streamingToggleWrites b))).useStreaming = b
    ∧ applyWrites st (regularSuccessWrites p m) "lastUsedProvider" = some p
    ∧ applyWrites st (regularSuccessWrites p m) "lastUsedModel" = some m
    ∧ applyWrites st (providerChangeWrites p) = st := by
  refine ⟨⟨by decide, by decide, by decide, by decide⟩, ?_, ?_, ?_, ?_, ?_, ?_, rfl⟩
  · simp [applyWrites, storeSet, timestampToggleWrites]
  · cases b <;>
      simp [initPrefs, applyWrites, storeSet, timestampToggleWrites,
        boolToStorage]
  · simp [applyWrites, storeSet, streamingToggleWrites]
  · cases b <;>
      simp [initPrefs, applyWrites, storeSet, streamingToggleWrites,
        boolToStorage]
  · simp [applyWrites, storeSet, regularSuccessWrites]
  · simp [applyWrites, storeSet, regularSuccessWrites]

end TranslatorUI
